import Mathlib

/-!
Verification development for the telegram media-tagging bot (src/main.py).

The bot keeps six module-level Python dictionaries keyed by the numeric user
id (src/main.py lines 24-30) and four event handlers plus a tagging pipeline
(`process_and_send`).  We embed the dictionaries as association lists over
`Nat` keys, the handlers as pure functions from a `BotState` to a new
`BotState` together with the observable outputs (chat replies and the list of
paths passed to `os.unlink`).  Raw Python subscripts `d[k]` (which raise
`KeyError` when the key is absent) are embedded as matches whose missing-key
branch returns `Except.error`; guarded accesses (`k in d`, `d.get(k)`,
`d.pop(k, None)`) are total.  External collaborators (telegram transport,
file download, mutagen, pydub, PIL) are abstracted by an `Env` record of
oracles: whether pydub is importable, which paths probe as MP3, whether the
pydub decode/export succeeds on a path, whether the tagging try-block
succeeds on a path, and the pre-existing title/artist tags of a file.
-/

set_option autoImplicit false

/-- Association-list lookup: Python `d.get(k)` / `d[k]` semantics
(first matching key wins; keys are unique in all reachable states). -/
def lookupL {α : Type} : List (Nat × α) → Nat → Option α
  | [], _ => none
  | (k, v) :: rest, k0 => if k = k0 then some v else lookupL rest k0

/-- Python `k in d`. -/
def containsL {α : Type} (d : List (Nat × α)) (k : Nat) : Bool :=
  (lookupL d k).isSome

/-- Python `d[k] = v`: replace in place if present, append otherwise. -/
def insertL {α : Type} : List (Nat × α) → Nat → α → List (Nat × α)
  | [], k0, v0 => [(k0, v0)]
  | (k, v) :: rest, k0, v0 =>
    if k = k0 then (k0, v0) :: rest else (k, v) :: insertL rest k0 v0

/-- Python `d.pop(k, None)` on the key side: remove every binding of `k`. -/
def eraseL {α : Type} : List (Nat × α) → Nat → List (Nat × α)
  | [], _ => []
  | (k, v) :: rest, k0 =>
    if k = k0 then eraseL rest k0 else (k, v) :: eraseL rest k0

theorem lookupL_insertL_self {α : Type} (d : List (Nat × α)) (k : Nat) (v : α) :
    lookupL (insertL d k v) k = some v := by
  induction d with
  | nil => simp [insertL, lookupL]
  | cons hd tl ih =>
    obtain ⟨k1, v1⟩ := hd
    by_cases h : k1 = k
    · simp [insertL, h, lookupL]
    · simp [insertL, h, lookupL, ih]

theorem lookupL_eraseL_self {α : Type} (d : List (Nat × α)) (k : Nat) :
    lookupL (eraseL d k) k = none := by
  induction d with
  | nil => simp [eraseL, lookupL]
  | cons hd tl ih =>
    obtain ⟨k1, v1⟩ := hd
    by_cases h : k1 = k
    · simp [eraseL, h, ih]
    · simp [eraseL, h, lookupL, ih]

/-- The pending-question marker stored in `user_waiting_for`
(src/main.py line 29: one of the strings "title", "artist", "image"). -/
inductive Wait where
  | title
  | artist
  | image
deriving DecidableEq, Repr

/-- Callback actions carried by the inline keyboard buttons
(src/main.py lines 110-120). -/
inductive BtnAction where
  | setimage
  | settitle
  | setartist
  | finish
deriving DecidableEq, Repr

/-- Observable outbound messages. `menu` is the "What next?" inline keyboard,
`document` the tagged audio file sent back to the user. -/
inductive Reply where
  | text (s : String)
  | menu
  | document
deriving DecidableEq, Repr

/-- The six module-level session dictionaries of src/main.py lines 24-30:
`user_audio_path`, `user_image_path`, `user_title`, `user_artist`,
`user_waiting_for`, `user_processed`. -/
structure BotState where
  audioPath : List (Nat × String)
  imagePath : List (Nat × String)
  title : List (Nat × String)
  artist : List (Nat × String)
  waitingFor : List (Nat × Wait)
  processed : List (Nat × Bool)
deriving DecidableEq, Repr

/-- Oracles for the external collaborators of the pipeline. -/
structure Env where
  HAVE_PYDUB : Bool
  isMp3 : String → Bool
  tagOk : String → Bool
  fileTitle : String → Option String
  fileArtist : String → Option String
  tagErr : String
  decodeOk : String → Bool
  decodeErr : String

def convUnavailableMsg : String := "Your audio isn\x27t MP3 and conversion is unavailable."
def noAudioMsg : String := "No audio found in your session."
def alreadyMsg : String := "✅ You’ve already processed this audio. Send a new one to start again."
def askImageMsg : String := "Please send me the image you want as cover."
def askTitleMsg : String := "Please type the title you want."
def askArtistMsg : String := "Please type the artist name you want."
def imageSavedMsg : String := "Image saved!"
def doneMsg : String := "✅ Done! Your audio is ready."
def whatNextMsg : String := "What next?"
def convErrPrefix : String := "❌ Error converting audio: "
def tagErrPrefix : String := "❌ Tagging failed: "
def titleSetPrefix : String := "Title set to: "
def artistSetPrefix : String := "Artist set to: "
def keyErrMsg : String := "KeyError"
def mp3Suffix : String := ".mp3"

/-- `_is_mp3` (src/main.py lines 52-59): probe whether `MP3(path)` parses;
every exception is turned into `False`.  The probe outcome is the oracle
`env.isMp3`. -/
def _is_mp3 (env : Env) (path : String) : Bool :=
  env.isMp3 path

/-- `_convert_to_mp3_if_needed` (src/main.py lines 61-69).  Returns the input
path unchanged when it already probes as MP3; raises (modelled as
`Except.error` with the message of the `RuntimeError`) when pydub is
unavailable; otherwise runs `AudioSegment.from_file` and `audio.export`
(lines 66-68), which can themselves raise — for undecodable input or a
missing ffmpeg — with the outcome given by the oracle `env.decodeOk` and
the exception text by `env.decodeErr`; on success the export lands at the
derived path `src_path + ".mp3"`. -/
def _convert_to_mp3_if_needed (env : Env) (src_path : String) :
    Except String String :=
  if _is_mp3 env src_path then Except.ok src_path
  else if env.HAVE_PYDUB = false then Except.error convUnavailableMsg
  else if env.decodeOk src_path = false then Except.error env.decodeErr
  else Except.ok (src_path ++ mp3Suffix)

/-- The final tag state of the working-copy file after a successful
`audio.save(v2_version=3)` (src/main.py lines 180-207): its path, its TIT2
text, its TPE1 text, and whether an APIC front cover was embedded. -/
structure TagOut where
  path : String
  titleTag : Option String
  artistTag : Option String
  coverSet : Bool
deriving DecidableEq, Repr

/-- Everything observable about one handler invocation: the resulting session
store, the replies sent, the paths passed to `os.unlink`, and the tag state
of the produced document (when one was produced). -/
structure PResult where
  state : BotState
  replies : List Reply
  unlinked : List String
  tagged : Option TagOut
deriving DecidableEq, Repr

/-- `ask_next_action` (src/main.py lines 149-164): shows the "What next?"
inline keyboard unless `user_processed.get(user_id)` is truthy. -/
def ask_next_action (s : BotState) (u : Nat) : List Reply :=
  if (lookupL s.processed u).getD false = true then [] else [Reply.menu]

/-- `handle_audio` (src/main.py lines 82-98), after the download collaborator
has materialised the upload at `tmpPath`: store the audio path, pop image,
title and artist, set `user_processed[user_id] = False`, then show the menu.
Note that `user_waiting_for` is left untouched. -/
def handle_audio (u : Nat) (tmpPath : String) (s : BotState) :
    BotState × List Reply :=
  let s1 : BotState :=
    { s with
      audioPath := insertL s.audioPath u tmpPath
      imagePath := eraseL s.imagePath u
      title := eraseL s.title u
      artist := eraseL s.artist u
      processed := insertL s.processed u false }
  (s1, ask_next_action s1 u)

/-- The `finally` block of `process_and_send` (src/main.py lines 221-234):
best-effort unlink of the working copy, of the original when it is a
distinct path, and of the image when present, then pop the audio, image,
title and artist entries (`user_waiting_for` and `user_processed` are not
popped).  Returns the new store and the unlink attempts in program order. -/
def finalize_cleanup (u : Nat) (orig work : String) (image : Option String)
    (s : BotState) : BotState × List String :=
  ({ s with
      audioPath := eraseL s.audioPath u
      imagePath := eraseL s.imagePath u
      title := eraseL s.title u
      artist := eraseL s.artist u },
   [work]
     ++ (if work ≠ orig then [orig] else [])
     ++ (match image with
         | some ip => [ip]
         | none => []))

/-- The compound `user_id in d and d[user_id]` of src/main.py lines 197 and
202: a membership-guarded raw subscript followed by the Python truthiness
test (the empty string is falsy).  `Except.ok (some v)` means the session
supplies the non-empty value `v`. -/
def truthyLookup (d : List (Nat × String)) (u : Nat) :
    Except String (Option String) :=
  if containsL d u = true then
    match lookupL d u with
    | none => Except.error keyErrMsg
    | some v => Except.ok (if v = "" then none else some v)
  else Except.ok none

/-- `process_and_send` (src/main.py lines 166-234).  Aborts with a reply when
the user has no audio; converts (replying and returning early, before any
cleanup, when conversion raises); then runs the tagging try-block, whose
success is the oracle `env.tagOk`: on success the title/artist merge of
lines 193-205 determines the saved tags, the document and the success text
are sent and `user_processed[user_id]` is set to `True`; on a caught failure
only the error text is sent.  In both cases the `finally` cleanup runs. -/
def process_and_send (env : Env) (u : Nat) (s : BotState) :
    Except String PResult :=
  if containsL s.audioPath u = false then
    Except.ok ⟨s, [Reply.text noAudioMsg], [], none⟩
  else
    match lookupL s.audioPath u with
    | none => Except.error keyErrMsg
    | some orig =>
      let image := lookupL s.imagePath u
      match _convert_to_mp3_if_needed env orig with
      | Except.error e =>
        Except.ok ⟨s, [Reply.text (convErrPrefix ++ e)], [], none⟩
      | Except.ok work =>
        if env.tagOk work = false then
          let cleaned := finalize_cleanup u orig work image s
          Except.ok ⟨cleaned.1, [Reply.text (tagErrPrefix ++ env.tagErr)],
                     cleaned.2, none⟩
        else
          match truthyLookup s.title u with
          | Except.error e => Except.error e
          | Except.ok sessTitle =>
            match truthyLookup s.artist u with
            | Except.error e => Except.error e
            | Except.ok sessArtist =>
              let outTitle : Option String :=
                match sessTitle with
                | some v => some v
                | none => env.fileTitle work
              let outArtist : Option String :=
                match sessArtist with
                | some v => some v
                | none => env.fileArtist work
              let s1 : BotState :=
                { s with processed := insertL s.processed u true }
              let cleaned := finalize_cleanup u orig work image s1
              Except.ok ⟨cleaned.1,
                         [Reply.document, Reply.text doneMsg],
                         cleaned.2,
                         some ⟨work, outTitle, outArtist, image.isSome⟩⟩

/-- `handle_callback` (src/main.py lines 100-120): the already-processed
notice when `user_processed.get(user_id)` is truthy, otherwise the three
set-field prompts (each records the expectation in `user_waiting_for`) or
the finish pipeline.  No session-existence check is performed. -/
def handle_callback (env : Env) (u : Nat) (a : BtnAction) (s : BotState) :
    Except String PResult :=
  if (lookupL s.processed u).getD false = true then
    Except.ok ⟨s, [Reply.text alreadyMsg], [], none⟩
  else
    match a with
    | BtnAction.setimage =>
      Except.ok ⟨{ s with waitingFor := insertL s.waitingFor u Wait.image },
                 [Reply.text askImageMsg], [], none⟩
    | BtnAction.settitle =>
      Except.ok ⟨{ s with waitingFor := insertL s.waitingFor u Wait.title },
                 [Reply.text askTitleMsg], [], none⟩
    | BtnAction.setartist =>
      Except.ok ⟨{ s with waitingFor := insertL s.waitingFor u Wait.artist },
                 [Reply.text askArtistMsg], [], none⟩
    | BtnAction.finish => process_and_send env u s

/-- `handle_text` (src/main.py lines 122-133): return silently when the user
has no pending expectation; otherwise pop it (a raw `d.pop(k)`, guarded by
the membership test), store the text when a title or artist was expected,
and re-present the menu in every popped case — including the expectation
`image`, for which the text itself is dropped. -/
def handle_text (u : Nat) (txt : String) (s : BotState) :
    Except String (BotState × List Reply) :=
  if containsL s.waitingFor u = false then Except.ok (s, [])
  else
    match lookupL s.waitingFor u with
    | none => Except.error keyErrMsg
    | some mode =>
      let s0 : BotState := { s with waitingFor := eraseL s.waitingFor u }
      match mode with
      | Wait.title =>
        let s1 : BotState := { s0 with title := insertL s0.title u txt }
        Except.ok (s1, [Reply.text (titleSetPrefix ++ txt)] ++ ask_next_action s1 u)
      | Wait.artist =>
        let s1 : BotState := { s0 with artist := insertL s0.artist u txt }
        Except.ok (s1, [Reply.text (artistSetPrefix ++ txt)] ++ ask_next_action s1 u)
      | Wait.image =>
        Except.ok (s0, ask_next_action s0 u)

/-- `handle_photo` (src/main.py lines 135-147): ignored unless an image is
awaited; otherwise clear the expectation, store the downloaded image path,
confirm, and re-present the menu. -/
def handle_photo (u : Nat) (imgPath : String) (s : BotState) :
    BotState × List Reply :=
  if lookupL s.waitingFor u ≠ some Wait.image then (s, [])
  else
    let s0 : BotState :=
      { s with
        waitingFor := eraseL s.waitingFor u
        imagePath := insertL s.imagePath u imgPath }
    (s0, [Reply.text imageSavedMsg] ++ ask_next_action s0 u)

/-- Inbound events of the chat transport, after file downloads have been
materialised to paths. -/
inductive Event where
  | audio (tmpPath : String)
  | text (txt : String)
  | photo (tmpPath : String)
  | callback (a : BtnAction)
deriving DecidableEq, Repr

/-- Dispatch of src/main.py lines 241-245: one inbound event to its handler. -/
def handleEvent (env : Env) (u : Nat) (e : Event) (s : BotState) :
    Except String PResult :=
  match e with
  | Event.audio p =>
    let r := handle_audio u p s
    Except.ok ⟨r.1, r.2, [], none⟩
  | Event.text t =>
    (handle_text u t s).map (fun r => ⟨r.1, r.2, [], none⟩)
  | Event.photo p =>
    let r := handle_photo u p s
    Except.ok ⟨r.1, r.2, [], none⟩
  | Event.callback a => handle_callback env u a s

/-- Natural-number distance, used for the tie-break key of the Pillow
`round_aspect` rounding. -/
def natAbsDiff (a b : Nat) : Nat := (a - b) + (b - a)

/-- Ceiling division on naturals. -/
def ceilDiv (a b : Nat) : Nat := (a + b - 1) / b

/-- Pillow `Image.thumbnail` rounding for the case `x / y >= aspect` (width
gets rounded): choose between the floor and the ceiling of `m * w / h` the
value `n` minimising `abs (w / h - n / m)`, floor winning ties, then clamp
to at least `1`.  The float key comparison is modelled by exact rational
cross-multiplication (the two keys share the denominator `h * m`, so only
the numerators `abs (w * m - h * n)` are compared); IEEE rounding can
deviate from the exact comparison by one pixel in near-ties, but the result
is always one of the floor, the ceiling, or `1`, so the bound and
no-upscale properties are unaffected, and the instances proved below are
far from ties. -/
def round_aspect_x (w h m : Nat) : Nat :=
  let fl := m * w / h
  let ce := ceilDiv (m * w) h
  max (if natAbsDiff (w * m) (h * fl) ≤ natAbsDiff (w * m) (h * ce) then fl else ce) 1

/-- Pillow `Image.thumbnail` rounding for the case `x / y < aspect` (height
gets rounded): choose between the floor and the ceiling of `m * h / w` the
value `n` minimising the key `0` when `n = 0` and `abs (w / h - m / n)`
otherwise, floor winning ties, then clamp to at least `1`.  The keys
`abs (w * n - h * m) / (h * n)` are compared by exact rational
cross-multiplication, with the same one-pixel near-tie caveat as in
`round_aspect_x`. -/
def round_aspect_y (w h m : Nat) : Nat :=
  let fl := m * h / w
  let ce := ceilDiv (m * h) w
  max (if fl = 0 then fl
       else if natAbsDiff (w * fl) (h * m) * (h * ce)
              ≤ natAbsDiff (w * ce) (h * m) * (h * fl)
            then fl else ce) 1

/-- The dimension behaviour of the Pillow call `Image.thumbnail((m, m))` as
invoked at src/main.py line 74: unchanged when the image already fits in the
`m × m` box, otherwise an aspect-preserving shrink in which the larger axis
is set to `m` and the other axis is rounded by `round_aspect`. -/
def thumbnailDims (w h m : Nat) : Nat × Nat :=
  if m ≥ w ∧ m ≥ h then (w, h)
  else if h ≥ w then (round_aspect_x w h m, m)
  else (m, round_aspect_y w h m)

/-- The dimension behaviour of `_prepare_cover_image_to_jpeg_bytes`
(src/main.py lines 71-77): the image is RGB-converted, thumbnailed into a
`max_size × max_size` box, and JPEG-encoded; only the thumbnail step changes
the dimensions. -/
def _prepare_cover_image_dims (w h max_size : Nat) : Nat × Nat :=
  thumbnailDims w h max_size

/-- Occurrence count of a path in an unlink trace. -/
def countL (l : List String) (x : String) : Nat :=
  match l with
  | [] => 0
  | y :: rest => (if y = x then 1 else 0) + countL rest x

/-- The total value of the compound `user_id in d and d[user_id]`. -/
def truthyVal (d : List (Nat × String)) (u : Nat) : Option String :=
  match lookupL d u with
  | some v => if v = "" then none else some v
  | none => none

theorem truthyLookup_eq (d : List (Nat × String)) (u : Nat) :
    truthyLookup d u = Except.ok (truthyVal d u) := by
  unfold truthyLookup truthyVal containsL
  cases h : lookupL d u <;> simp [h]

def origOgg : String := "/tmp/a.ogg"
def origMp3 : String := "/tmp/a.mp3"
def newMp3 : String := "/tmp/b.mp3"
def sampleText : String := "hello"
def samplePhoto : String := "/tmp/img.jpg"
def oldTitle : String := "Old Title"
def oldArtist : String := "Old Artist"
def songX : String := "Song X"
def boomMsg : String := "boom"
def decodeFailMsg : String := "Decoding failed. ffmpeg returned error code: 1"

def env0 : Env :=
  ⟨true, fun _ => true, fun _ => true, fun _ => none, fun _ => none, boomMsg,
   fun _ => true, decodeFailMsg⟩
def envNoPydub : Env :=
  ⟨false, fun _ => false, fun _ => true, fun _ => none, fun _ => none, boomMsg,
   fun _ => true, decodeFailMsg⟩
def envTagFail : Env :=
  ⟨true, fun _ => true, fun _ => false, fun _ => none, fun _ => none, boomMsg,
   fun _ => true, decodeFailMsg⟩
def envOk : Env :=
  ⟨true, fun _ => true, fun _ => true, fun _ => some oldTitle,
   fun _ => some oldArtist, boomMsg, fun _ => true, decodeFailMsg⟩
def envPydubConv : Env :=
  ⟨true, fun _ => false, fun _ => true, fun _ => none, fun _ => none, boomMsg,
   fun _ => true, decodeFailMsg⟩
def envDecodeFail : Env :=
  ⟨true, fun _ => false, fun _ => true, fun _ => none, fun _ => none, boomMsg,
   fun _ => false, decodeFailMsg⟩

def s0 : BotState := ⟨[], [], [], [], [], []⟩
def sAudio : BotState := ⟨[(1, origOgg)], [], [], [], [], [(1, false)]⟩
def sAudioMp3 : BotState := ⟨[(1, origMp3)], [], [], [], [], [(1, false)]⟩
def sAudioWaiting : BotState :=
  ⟨[(1, origMp3)], [], [], [], [(1, Wait.title)], [(1, false)]⟩
def sAwaitImage : BotState :=
  ⟨[(1, origMp3)], [], [], [], [(1, Wait.image)], [(1, false)]⟩
def sC7 : BotState := ⟨[(1, origMp3)], [], [(1, songX)], [], [], [(1, false)]⟩

/-- C1: with a session holding non-MP3 audio and pydub unavailable, pressing
finish replies with the conversion error and produces no document — but the
code returns from `process_and_send` before its try/finally block, so no
path is unlinked and every session entry survives: the claimed run of the
Finalizer (original file deleted, session purged) does not happen. -/
theorem conversion_error_skips_finalizer :
    process_and_send envNoPydub 1 sAudio =
      Except.ok ⟨sAudio, [Reply.text (convErrPrefix ++ convUnavailableMsg)],
                 [], none⟩ := rfl

/-- C2 counterexample: a user with no session state at all presses the
"Set Image" button; the handler records `awaitingField = image` for them, so
the event is not a no-op on session state. -/
theorem sessionless_setimage_mutates :
    lookupL s0.waitingFor 1 = none ∧
    handle_callback env0 1 BtnAction.setimage s0 =
      Except.ok ⟨⟨[], [], [], [], [(1, Wait.image)], []⟩,
                 [Reply.text askImageMsg], [], none⟩ := ⟨rfl, rfl⟩

/-- C3 counterexample: the finish pipeline is run on a session whose tagging
try-block fails; afterwards the finalized flag still reads `False`, and the
action menu would be shown again for that user — the claim that completion
or failure both set `finalized = true` is false. -/
theorem tagging_failure_not_finalized :
    process_and_send envTagFail 1 sAudioMp3 =
      Except.ok ⟨⟨[], [], [], [], [], [(1, false)]⟩,
                 [Reply.text (tagErrPrefix ++ boomMsg)], [origMp3], none⟩ ∧
    ask_next_action ⟨[], [], [], [], [], [(1, false)]⟩ 1 = [Reply.menu] :=
  ⟨rfl, rfl⟩

/-- C4 counterexample: a text message arrives while an image is awaited; the
handler pops the pending expectation (a session mutation) and re-presents
the action menu (a reply) — the event is not silently ignored. -/
theorem text_while_awaiting_image_mutates :
    handle_text 1 sampleText sAwaitImage =
      Except.ok (⟨[(1, origMp3)], [], [], [], [], [(1, false)]⟩,
                 [Reply.menu]) := rfl

/-- C5 counterexample: after a successful finalization the user still has an
entry in `user_waiting_for` (the expectation pending when finish was
pressed) and in `user_processed` — the session is not absent from every map
of the Session Store. -/
theorem finalizer_leaves_store_entries :
    (process_and_send envOk 1 sAudioWaiting).map
        (fun r => (lookupL r.state.waitingFor 1, lookupL r.state.processed 1)) =
      Except.ok (some Wait.title, some true) := rfl

/-- C6 counterexample: a user who was being asked for a title uploads a new
audio file; the pending `awaitingField` question survives the upload, so
the session is not entirely reset. -/
theorem new_audio_keeps_waiting_field :
    lookupL ((handle_audio 1 newMp3 sAudioWaiting).1).waitingFor 1 =
      some Wait.title := rfl

/-- C6 (amended): uploading new audio stores the new path, clears the image,
title and artist entries, and resets the finalized flag to `False` — but the
pending `awaitingField` entry is left exactly as it was. -/
theorem new_audio_reset_amended (u : Nat) (p : String) (s : BotState) :
    lookupL ((handle_audio u p s).1).audioPath u = some p ∧
    lookupL ((handle_audio u p s).1).imagePath u = none ∧
    lookupL ((handle_audio u p s).1).title u = none ∧
    lookupL ((handle_audio u p s).1).artist u = none ∧
    lookupL ((handle_audio u p s).1).processed u = some false ∧
    ((handle_audio u p s).1).waitingFor = s.waitingFor := by
  refine ⟨?_, ?_, ?_, ?_, ?_, rfl⟩ <;>
    simp [handle_audio, lookupL_insertL_self, lookupL_eraseL_self]

/-- C8 counterexample: a non-MP3 input with pydub importable but the decode
or export raising (undecodable input, or ffmpeg missing behind a successful
`pydub` import) — the conversion raises instead of producing the derived
path, so availability of the backend alone does not guarantee the claimed
converted file. -/
theorem decode_failure_breaks_contract :
    _is_mp3 envDecodeFail origOgg = false ∧
    envDecodeFail.HAVE_PYDUB = true ∧
    _convert_to_mp3_if_needed envDecodeFail origOgg =
      Except.error decodeFailMsg ∧
    _convert_to_mp3_if_needed envDecodeFail origOgg ≠
      Except.ok (origOgg ++ mp3Suffix) :=
  ⟨rfl, rfl, rfl, fun hcon => Except.noConfusion hcon⟩

/-- C8 (amended): `_convert_to_mp3_if_needed` returns the input path
unchanged when it already probes as MP3; with pydub available it converts a
non-MP3 input to the derived path `src_path + ".mp3"` provided the decode
and export succeed, and raises the backend error (surfaced upstream as the
conversion error) when they do not. -/
theorem ensure_target_format_contract (env : Env) (p : String) :
    (_is_mp3 env p = true → _convert_to_mp3_if_needed env p = Except.ok p) ∧
    (_is_mp3 env p = false → env.HAVE_PYDUB = true → env.decodeOk p = true →
      _convert_to_mp3_if_needed env p = Except.ok (p ++ mp3Suffix)) ∧
    (_is_mp3 env p = false → env.HAVE_PYDUB = true → env.decodeOk p = false →
      _convert_to_mp3_if_needed env p = Except.error env.decodeErr) := by
  refine ⟨?_, ?_, ?_⟩
  · intro hmp3
    simp [_convert_to_mp3_if_needed, hmp3]
  · intro hmp3 hpy hdec
    simp [_convert_to_mp3_if_needed, hmp3, hpy, hdec]
  · intro hmp3 hpy hdec
    simp [_convert_to_mp3_if_needed, hmp3, hpy, hdec]

/-- C8 witness: the contract evaluated on a concrete MP3 input, on a
concrete non-MP3 input with pydub available and decoding, and on a concrete
non-MP3 input whose decode raises. -/
theorem ensure_target_format_contract_witness :
    _convert_to_mp3_if_needed env0 origMp3 = Except.ok origMp3 ∧
    _convert_to_mp3_if_needed envPydubConv origOgg =
      Except.ok (origOgg ++ mp3Suffix) ∧
    _convert_to_mp3_if_needed envDecodeFail origOgg =
      Except.error envDecodeFail.decodeErr :=
  ⟨(ensure_target_format_contract env0 origMp3).1 rfl,
   (ensure_target_format_contract envPydubConv origOgg).2.1 rfl rfl rfl,
   (ensure_target_format_contract envDecodeFail origOgg).2.2 rfl rfl rfl⟩

theorem process_run_fail (env : Env) (u : Nat) (s : BotState) (orig work : String)
    (hA : lookupL s.audioPath u = some orig)
    (hC : _convert_to_mp3_if_needed env orig = Except.ok work)
    (hT : env.tagOk work = false) :
    process_and_send env u s =
      Except.ok ⟨(finalize_cleanup u orig work (lookupL s.imagePath u) s).1,
                 [Reply.text (tagErrPrefix ++ env.tagErr)],
                 (finalize_cleanup u orig work (lookupL s.imagePath u) s).2,
                 none⟩ := by
  unfold process_and_send
  simp [containsL, hA, hC, hT]

theorem process_run_ok (env : Env) (u : Nat) (s : BotState) (orig work : String)
    (hA : lookupL s.audioPath u = some orig)
    (hC : _convert_to_mp3_if_needed env orig = Except.ok work)
    (hT : env.tagOk work = true) :
    process_and_send env u s =
      Except.ok ⟨(finalize_cleanup u orig work (lookupL s.imagePath u)
                    { s with processed := insertL s.processed u true }).1,
                 [Reply.document, Reply.text doneMsg],
                 (finalize_cleanup u orig work (lookupL s.imagePath u)
                    { s with processed := insertL s.processed u true }).2,
                 some ⟨work,
                       (match truthyVal s.title u with
                        | some v => some v
                        | none => env.fileTitle work),
                       (match truthyVal s.artist u with
                        | some v => some v
                        | none => env.fileArtist work),
                       (lookupL s.imagePath u).isSome⟩⟩ := by
  unfold process_and_send
  simp [containsL, hA, hC, hT, truthyLookup_eq]

/-- C2 (amended): for a user with no entry in any session map, incoming text,
photos and the finish button cause no session mutation (finish additionally
replies that no audio was found) — but the three set-field buttons are not
no-ops: each records an `awaitingField` expectation for the sessionless user
and sends its prompt. -/
theorem sessionless_events_amended (env : Env) (u : Nat) (t p : String)
    (s : BotState)
    (ha : lookupL s.audioPath u = none)
    (hw : lookupL s.waitingFor u = none)
    (hp : lookupL s.processed u = none) :
    handleEvent env u (Event.text t) s = Except.ok ⟨s, [], [], none⟩ ∧
    handleEvent env u (Event.photo p) s = Except.ok ⟨s, [], [], none⟩ ∧
    handleEvent env u (Event.callback BtnAction.finish) s =
      Except.ok ⟨s, [Reply.text noAudioMsg], [], none⟩ ∧
    handleEvent env u (Event.callback BtnAction.setimage) s =
      Except.ok ⟨{ s with waitingFor := insertL s.waitingFor u Wait.image },
                 [Reply.text askImageMsg], [], none⟩ ∧
    handleEvent env u (Event.callback BtnAction.settitle) s =
      Except.ok ⟨{ s with waitingFor := insertL s.waitingFor u Wait.title },
                 [Reply.text askTitleMsg], [], none⟩ ∧
    handleEvent env u (Event.callback BtnAction.setartist) s =
      Except.ok ⟨{ s with waitingFor := insertL s.waitingFor u Wait.artist },
                 [Reply.text askArtistMsg], [], none⟩ := by
  refine ⟨?_, ?_, ?_, ?_, ?_, ?_⟩
  · simp [handleEvent, handle_text, containsL, hw, Except.map]
  · simp [handleEvent, handle_photo, hw]
  · simp [handleEvent, handle_callback, hp, process_and_send, containsL, ha]
  · simp [handleEvent, handle_callback, hp]
  · simp [handleEvent, handle_callback, hp]
  · simp [handleEvent, handle_callback, hp]

/-- C2 witness: the amended statement evaluated for user 1 on the empty
store. -/
theorem sessionless_events_amended_witness :
    handleEvent env0 1 (Event.text sampleText) s0 = Except.ok ⟨s0, [], [], none⟩ ∧
    handleEvent env0 1 (Event.photo samplePhoto) s0 = Except.ok ⟨s0, [], [], none⟩ ∧
    handleEvent env0 1 (Event.callback BtnAction.finish) s0 =
      Except.ok ⟨s0, [Reply.text noAudioMsg], [], none⟩ ∧
    handleEvent env0 1 (Event.callback BtnAction.setimage) s0 =
      Except.ok ⟨{ s0 with waitingFor := insertL s0.waitingFor 1 Wait.image },
                 [Reply.text askImageMsg], [], none⟩ ∧
    handleEvent env0 1 (Event.callback BtnAction.settitle) s0 =
      Except.ok ⟨{ s0 with waitingFor := insertL s0.waitingFor 1 Wait.title },
                 [Reply.text askTitleMsg], [], none⟩ ∧
    handleEvent env0 1 (Event.callback BtnAction.setartist) s0 =
      Except.ok ⟨{ s0 with waitingFor := insertL s0.waitingFor 1 Wait.artist },
                 [Reply.text askArtistMsg], [], none⟩ :=
  sessionless_events_amended env0 1 sampleText samplePhoto s0 rfl rfl rfl

/-- C4 (amended): text or image arriving while `awaitingField` is unset is
silently ignored, and an image arriving while a text field is awaited is
silently ignored; but a text message arriving while an image is awaited is
not silent — it clears the pending expectation (storing nothing) and
re-presents the action menu. -/
theorem wrong_kind_input_amended (u : Nat) (t p : String) (s : BotState) :
    (lookupL s.waitingFor u = none →
       handle_text u t s = Except.ok (s, []) ∧ handle_photo u p s = (s, [])) ∧
    (∀ m, lookupL s.waitingFor u = some m → m ≠ Wait.image →
       handle_photo u p s = (s, [])) ∧
    (lookupL s.waitingFor u = some Wait.image →
       handle_text u t s =
         Except.ok ({ s with waitingFor := eraseL s.waitingFor u },
                    ask_next_action { s with waitingFor := eraseL s.waitingFor u } u)) := by
  refine ⟨?_, ?_, ?_⟩
  · intro hw
    exact ⟨by simp [handle_text, containsL, hw], by simp [handle_photo, hw]⟩
  · intro m hm hne
    simp [handle_photo, hm, hne]
  · intro hw
    simp [handle_text, containsL, hw]

/-- C4 witness: both silent cases evaluated for user 1 on the empty store. -/
theorem wrong_kind_input_amended_witness :
    handle_text 1 sampleText s0 = Except.ok (s0, []) ∧
    handle_photo 1 samplePhoto s0 = (s0, []) :=
  (wrong_kind_input_amended 1 sampleText samplePhoto s0).1 rfl

/-- C10: handling any inbound event for a user with no entry in any session
dictionary never reaches an unguarded `KeyError` lookup: the handler always
returns a result. -/
theorem unknown_user_never_key_errors (env : Env) (u : Nat) (e : Event)
    (s : BotState)
    (ha : lookupL s.audioPath u = none)
    (_hi : lookupL s.imagePath u = none)
    (_ht : lookupL s.title u = none)
    (_hr : lookupL s.artist u = none)
    (hw : lookupL s.waitingFor u = none)
    (hp : lookupL s.processed u = none) :
    ∃ r, handleEvent env u e s = Except.ok r := by
  cases e with
  | audio p => exact ⟨_, rfl⟩
  | text t =>
    refine ⟨⟨s, [], [], none⟩, ?_⟩
    simp [handleEvent, handle_text, containsL, hw, Except.map]
  | photo p =>
    refine ⟨⟨s, [], [], none⟩, ?_⟩
    simp [handleEvent, handle_photo, hw]
  | callback a =>
    cases a with
    | setimage =>
      refine ⟨⟨{ s with waitingFor := insertL s.waitingFor u Wait.image },
               [Reply.text askImageMsg], [], none⟩, ?_⟩
      simp [handleEvent, handle_callback, hp]
    | settitle =>
      refine ⟨⟨{ s with waitingFor := insertL s.waitingFor u Wait.title },
               [Reply.text askTitleMsg], [], none⟩, ?_⟩
      simp [handleEvent, handle_callback, hp]
    | setartist =>
      refine ⟨⟨{ s with waitingFor := insertL s.waitingFor u Wait.artist },
               [Reply.text askArtistMsg], [], none⟩, ?_⟩
      simp [handleEvent, handle_callback, hp]
    | finish =>
      refine ⟨⟨s, [Reply.text noAudioMsg], [], none⟩, ?_⟩
      simp [handleEvent, handle_callback, hp, process_and_send, containsL, ha]

/-- C10 witness: an unknown user presses finish on the empty store; the
handler returns a result rather than raising. -/
theorem unknown_user_never_key_errors_witness :
    ∃ r, handleEvent env0 2 (Event.callback BtnAction.finish) s0 = Except.ok r :=
  unknown_user_never_key_errors env0 2 (Event.callback BtnAction.finish) s0
    rfl rfl rfl rfl rfl rfl

/-- The concrete result of pressing finish on `sAudioMp3` under `envOk`. -/
def rOkEx : PResult :=
  ⟨⟨[], [], [], [], [], [(1, true)]⟩,
   [Reply.document, Reply.text doneMsg],
   [origMp3],
   some ⟨origMp3, some oldTitle, some oldArtist, false⟩⟩

/-- C3 (amended): after the finish pipeline runs past conversion, the
finalized flag is set to `True` only when the tagging try-block succeeds —
and then the menu is never shown again for that session and every further
button press gets only the already-processed notice with no state change;
when tagging fails with a caught error the flag is left as it was. -/
theorem finish_finalization_amended (env : Env) (u : Nat) (s : BotState)
    (orig work : String) (r : PResult)
    (hA : lookupL s.audioPath u = some orig)
    (hC : _convert_to_mp3_if_needed env orig = Except.ok work)
    (hR : process_and_send env u s = Except.ok r) :
    (env.tagOk work = true →
       lookupL r.state.processed u = some true ∧
       ask_next_action r.state u = [] ∧
       (∀ a, handle_callback env u a r.state =
          Except.ok ⟨r.state, [Reply.text alreadyMsg], [], none⟩)) ∧
    (env.tagOk work = false →
       lookupL r.state.processed u = lookupL s.processed u) := by
  constructor
  · intro hT
    rw [process_run_ok env u s orig work hA hC hT] at hR
    simp only [Except.ok.injEq] at hR
    subst hR
    refine ⟨?_, ?_, ?_⟩
    · simp [finalize_cleanup, lookupL_insertL_self]
    · simp [ask_next_action, finalize_cleanup, lookupL_insertL_self]
    · intro a
      simp [handle_callback, finalize_cleanup, lookupL_insertL_self]
  · intro hT
    rw [process_run_fail env u s orig work hA hC hT] at hR
    simp only [Except.ok.injEq] at hR
    subst hR
    rfl

/-- C3 witness: the success half evaluated on a concrete finish run. -/
theorem finish_finalization_amended_witness :
    lookupL rOkEx.state.processed 1 = some true ∧
    ask_next_action rOkEx.state 1 = [] ∧
    handle_callback envOk 1 BtnAction.finish rOkEx.state =
      Except.ok ⟨rOkEx.state, [Reply.text alreadyMsg], [], none⟩ := by
  have h := (finish_finalization_amended envOk 1 sAudioMp3 origMp3 origMp3
      rOkEx rfl rfl rfl).1 rfl
  exact ⟨h.1, h.2.1, h.2.2 BtnAction.finish⟩

theorem finalize_cleanup_spec (u : Nat) (orig work : String)
    (image : Option String) (s : BotState)
    (hIm : ∀ ip, image = some ip → ip ≠ orig ∧ ip ≠ work) :
    countL (finalize_cleanup u orig work image s).2 orig = 1 ∧
    (work ≠ orig → countL (finalize_cleanup u orig work image s).2 work = 1) ∧
    (∀ ip, image = some ip →
       countL (finalize_cleanup u orig work image s).2 ip = 1) ∧
    lookupL (finalize_cleanup u orig work image s).1.audioPath u = none ∧
    lookupL (finalize_cleanup u orig work image s).1.imagePath u = none ∧
    lookupL (finalize_cleanup u orig work image s).1.title u = none ∧
    lookupL (finalize_cleanup u orig work image s).1.artist u = none ∧
    (finalize_cleanup u orig work image s).1.waitingFor = s.waitingFor ∧
    (finalize_cleanup u orig work image s).1.processed = s.processed := by
  refine ⟨?_, ?_, ?_, lookupL_eraseL_self _ _, lookupL_eraseL_self _ _,
          lookupL_eraseL_self _ _, lookupL_eraseL_self _ _, rfl, rfl⟩
  · by_cases hwo : work = orig
    · cases himg : image with
      | none => simp [finalize_cleanup, countL, hwo]
      | some ip =>
        have hip := hIm ip himg
        simp [finalize_cleanup, countL, hwo, hip.1]
    · cases himg : image with
      | none => simp [finalize_cleanup, countL, hwo]
      | some ip =>
        have hip := hIm ip himg
        simp [finalize_cleanup, countL, hwo, hip.1]
  · intro hwo
    cases himg : image with
    | none => simp [finalize_cleanup, countL, hwo, Ne.symm hwo]
    | some ip =>
      have hip := hIm ip himg
      simp [finalize_cleanup, countL, hwo, Ne.symm hwo, hip.2]
  · intro ip himg
    have hip := hIm ip himg
    by_cases hwo : work = orig
    · simp [finalize_cleanup, countL, hwo, himg, Ne.symm hip.1]
    · simp [finalize_cleanup, countL, hwo, himg, Ne.symm hip.1, Ne.symm hip.2]

/-- C5 (amended): whenever the finish pipeline reaches its try/finally block
(conversion succeeded), each temporary path referenced by the session — the
working copy, the original when it is a distinct path, and the image when
present and distinct — is unlinked exactly once, never twice even when the
working copy and the original are the same path, and the audio, image,
title and artist entries of the user are purged; the `awaitingField` map,
however, is left untouched (and the finalized flag also survives, per the
counterexample). -/
theorem finalizer_cleanup_amended (env : Env) (u : Nat) (s : BotState)
    (orig work : String) (r : PResult)
    (hA : lookupL s.audioPath u = some orig)
    (hC : _convert_to_mp3_if_needed env orig = Except.ok work)
    (hR : process_and_send env u s = Except.ok r)
    (hIm : ∀ ip, lookupL s.imagePath u = some ip → ip ≠ orig ∧ ip ≠ work) :
    countL r.unlinked orig = 1 ∧
    (work ≠ orig → countL r.unlinked work = 1) ∧
    (∀ ip, lookupL s.imagePath u = some ip → countL r.unlinked ip = 1) ∧
    lookupL r.state.audioPath u = none ∧
    lookupL r.state.imagePath u = none ∧
    lookupL r.state.title u = none ∧
    lookupL r.state.artist u = none ∧
    r.state.waitingFor = s.waitingFor := by
  by_cases hT : env.tagOk work = true
  · rw [process_run_ok env u s orig work hA hC hT] at hR
    simp only [Except.ok.injEq] at hR
    subst hR
    have h := finalize_cleanup_spec u orig work (lookupL s.imagePath u)
      { s with processed := insertL s.processed u true } hIm
    exact ⟨h.1, h.2.1, h.2.2.1, h.2.2.2.1, h.2.2.2.2.1, h.2.2.2.2.2.1,
           h.2.2.2.2.2.2.1, h.2.2.2.2.2.2.2.1⟩
  · rw [Bool.not_eq_true] at hT
    rw [process_run_fail env u s orig work hA hC hT] at hR
    simp only [Except.ok.injEq] at hR
    subst hR
    have h := finalize_cleanup_spec u orig work (lookupL s.imagePath u) s hIm
    exact ⟨h.1, h.2.1, h.2.2.1, h.2.2.2.1, h.2.2.2.2.1, h.2.2.2.2.2.1,
           h.2.2.2.2.2.2.1, h.2.2.2.2.2.2.2.1⟩

/-- The concrete result of pressing finish on `sAudioWaiting` under
`envOk`. -/
def rC5 : PResult :=
  ⟨⟨[], [], [], [], [(1, Wait.title)], [(1, true)]⟩,
   [Reply.document, Reply.text doneMsg],
   [origMp3],
   some ⟨origMp3, some oldTitle, some oldArtist, false⟩⟩

/-- C5 witness: the amended cleanup statement evaluated on a concrete
finish run whose working copy and original coincide. -/
theorem finalizer_cleanup_amended_witness :
    countL rC5.unlinked origMp3 = 1 ∧
    lookupL rC5.state.audioPath 1 = none ∧
    rC5.state.waitingFor = sAudioWaiting.waitingFor := by
  have h := finalizer_cleanup_amended envOk 1 sAudioWaiting origMp3 origMp3 rC5
    rfl rfl rfl (fun ip hip => nomatch hip)
  exact ⟨h.1, h.2.2.2.1, h.2.2.2.2.2.2.2⟩

/-- C7: the title/artist merge of the tagging pipeline treats the two fields
independently: a present non-empty session value overwrites the tag on the
produced file; an absent or empty session value leaves the produced tag
equal to the pre-existing one of the working file (and hence absent when
neither exists). -/
theorem tag_merge_title_artist (env : Env) (u : Nat) (s : BotState)
    (orig work : String) (r : PResult)
    (hA : lookupL s.audioPath u = some orig)
    (hC : _convert_to_mp3_if_needed env orig = Except.ok work)
    (hT : env.tagOk work = true)
    (hR : process_and_send env u s = Except.ok r) :
    (∀ v, lookupL s.title u = some v → v ≠ "" →
       r.tagged.map TagOut.titleTag = some (some v)) ∧
    ((lookupL s.title u = none ∨ lookupL s.title u = some "") →
       r.tagged.map TagOut.titleTag = some (env.fileTitle work)) ∧
    (∀ v, lookupL s.artist u = some v → v ≠ "" →
       r.tagged.map TagOut.artistTag = some (some v)) ∧
    ((lookupL s.artist u = none ∨ lookupL s.artist u = some "") →
       r.tagged.map TagOut.artistTag = some (env.fileArtist work)) := by
  rw [process_run_ok env u s orig work hA hC hT] at hR
  simp only [Except.ok.injEq] at hR
  subst hR
  refine ⟨?_, ?_, ?_, ?_⟩
  · intro v hv hne
    simp [truthyVal, hv, hne]
  · rintro (hv | hv) <;> simp [truthyVal, hv]
  · intro v hv hne
    simp [truthyVal, hv, hne]
  · rintro (hv | hv) <;> simp [truthyVal, hv]

/-- The concrete result of pressing finish on `sC7` under `envOk`. -/
def rC7 : PResult :=
  ⟨⟨[], [], [], [], [], [(1, true)]⟩,
   [Reply.document, Reply.text doneMsg],
   [origMp3],
   some ⟨origMp3, some songX, some oldArtist, false⟩⟩

/-- C7 witness: a session with title "Song X" and no artist, tagged onto a
file already carrying both tags — the title is overwritten, the artist
preserved. -/
theorem tag_merge_title_artist_witness :
    rC7.tagged.map TagOut.titleTag = some (some songX) ∧
    rC7.tagged.map TagOut.artistTag = some (envOk.fileArtist origMp3) := by
  have h := tag_merge_title_artist envOk 1 sC7 origMp3 origMp3 rC7 rfl rfl rfl rfl
  exact ⟨h.1 songX rfl (by decide), h.2.2.2 (Or.inl rfl)⟩

theorem ceilDiv_le {a b c : Nat} (hb : 0 < b) (h : a ≤ b * c) :
    ceilDiv a b ≤ c := by
  unfold ceilDiv
  rw [Nat.div_le_iff_le_mul_add_pred hb, Nat.add_sub_assoc hb]
  exact Nat.add_le_add_right h (b - 1)

theorem floorDiv_le {a b c : Nat} (hb : 0 < b) (h : a ≤ b * c) :
    a / b ≤ c := by
  rw [Nat.div_le_iff_le_mul_add_pred hb]
  exact le_trans h (Nat.le_add_right _ _)

theorem round_aspect_x_le {w h m c : Nat} (hh : 0 < h) (hc : 1 ≤ c)
    (hle : m * w ≤ h * c) : round_aspect_x w h m ≤ c := by
  have h1 : m * w / h ≤ c := floorDiv_le hh hle
  have h2 : ceilDiv (m * w) h ≤ c := ceilDiv_le hh hle
  unfold round_aspect_x
  refine max_le ?_ hc
  split
  · exact h1
  · exact h2

theorem round_aspect_y_le {w h m c : Nat} (hw : 0 < w) (hc : 1 ≤ c)
    (hle : m * h ≤ w * c) : round_aspect_y w h m ≤ c := by
  have h1 : m * h / w ≤ c := floorDiv_le hw hle
  have h2 : ceilDiv (m * h) w ≤ c := ceilDiv_le hw hle
  unfold round_aspect_y
  refine max_le ?_ hc
  split
  · exact h1
  · split
    · exact h1
    · exact h2

theorem thumbnailDims_bounds (w h m : Nat) (hw : 1 ≤ w) (hh : 1 ≤ h)
    (hm : 1 ≤ m) :
    (thumbnailDims w h m).1 ≤ m ∧ (thumbnailDims w h m).1 ≤ w ∧
    (thumbnailDims w h m).2 ≤ m ∧ (thumbnailDims w h m).2 ≤ h := by
  unfold thumbnailDims
  split
  · next hfit => exact ⟨hfit.1, le_refl w, hfit.2, le_refl h⟩
  · next hnofit =>
    split
    · next hwh =>
      have hmh : m < h := by
        by_contra hcon
        push_neg at hcon
        exact hnofit ⟨le_trans hwh hcon, hcon⟩
      refine ⟨?_, ?_, le_refl m, le_of_lt hmh⟩
      · refine round_aspect_x_le hh hm ?_
        rw [Nat.mul_comm h m]
        exact Nat.mul_le_mul_left m hwh
      · exact round_aspect_x_le hh hw (Nat.mul_le_mul_right w (le_of_lt hmh))
    · next hwh =>
      have hhw : h < w := Nat.lt_of_not_le hwh
      have hmw : m < w := by
        by_contra hcon
        push_neg at hcon
        exact hnofit ⟨hcon, le_trans (le_of_lt hhw) hcon⟩
      refine ⟨le_refl m, le_of_lt hmw, ?_, ?_⟩
      · refine round_aspect_y_le hw hm ?_
        rw [Nat.mul_comm w m]
        exact Nat.mul_le_mul_left m (le_of_lt hhw)
      · exact round_aspect_y_le hw hh (Nat.mul_le_mul_right h (le_of_lt hmw))

/-- C9: cover normalization never produces a dimension exceeding the
bounding box and never upscales, and on the concrete inputs of the spec a
3000x1000 image with box 1000 becomes exactly 1000x333 while a 500x400
image is left at 500x400. -/
theorem cover_thumbnail_dims (w h m : Nat) (hw : 1 ≤ w) (hh : 1 ≤ h)
    (hm : 1 ≤ m) :
    ((_prepare_cover_image_dims w h m).1 ≤ m ∧
     (_prepare_cover_image_dims w h m).1 ≤ w ∧
     (_prepare_cover_image_dims w h m).2 ≤ m ∧
     (_prepare_cover_image_dims w h m).2 ≤ h) ∧
    _prepare_cover_image_dims 3000 1000 1000 = (1000, 333) ∧
    _prepare_cover_image_dims 500 400 1000 = (500, 400) := by
  refine ⟨thumbnailDims_bounds w h m hw hh hm, ?_, ?_⟩ <;> decide

/-- C9 witness: the bounds evaluated at the 3000x1000 input of the spec. -/
theorem cover_thumbnail_dims_witness :
    ((_prepare_cover_image_dims 3000 1000 1000).1 ≤ 1000 ∧
     (_prepare_cover_image_dims 3000 1000 1000).1 ≤ 3000 ∧
     (_prepare_cover_image_dims 3000 1000 1000).2 ≤ 1000 ∧
     (_prepare_cover_image_dims 3000 1000 1000).2 ≤ 1000) ∧
    _prepare_cover_image_dims 3000 1000 1000 = (1000, 333) ∧
    _prepare_cover_image_dims 500 400 1000 = (500, 400) :=
  cover_thumbnail_dims 3000 1000 1000 (by decide) (by decide) (by decide)
